import Mathlib

/-!
Shallow embedding of the two MNIST notebooks of this repository: the
Context Aggregation Network notebook (Assignment 1/can.ipynb) and the
modified LeNet-5 notebook.  The two notebooks share their hyperparameter
cell, their data-loading cell and their training and evaluation loops
verbatim; they differ only in the model definition.  Tensors are modelled
at the level the verified properties need: parameter counts of layers,
shape propagation through the forward pass (with Option modelling the
framework exception on a shape mismatch), rational pixel values for the
preprocessing pipeline, event traces for the ordering of the training and
evaluation loops, and explicit counter state for the accuracy bookkeeping.
-/

namespace MNISTNotebooks

/-- Batch size, defined in the first code cell of both notebooks. -/
def batch_size : Nat := 64

/-- Number of output classes, first code cell of both notebooks. -/
def num_classes : Nat := 10

/-- Number of epochs, first code cell of both notebooks. -/
def num_epochs : Nat := 20

/-- Learning rate of the Adam optimizer, first code cell of both notebooks. -/
def learning_rate : ℚ := 1 / 100

/-- Configuration of a torch.nn.Conv2d layer: the constructor arguments the
notebooks use.  The trainable parameters of such a layer are a weight tensor
of shape (out_channels, in_channels, kernel_size, kernel_size) and a bias
vector of length out_channels; dilation, padding and stride change no
parameter shape. -/
structure Conv2d where
  in_channels : Nat
  out_channels : Nat
  kernel_size : Nat
  stride : Nat := 1
  padding : Nat := 0
  dilation : Nat := 1
deriving DecidableEq

/-- Number of trainable parameters of a Conv2d layer: the elements of the
weight tensor plus the bias vector. -/
def Conv2d.paramCount (conv : Conv2d) : Nat :=
  conv.out_channels * conv.in_channels * conv.kernel_size * conv.kernel_size
    + conv.out_channels

namespace CANModel

/-- First layer of CANModel: nn.Conv2d(1, 32, kernel_size=3, dilation=1, padding=1). -/
def conv1 : Conv2d :=
  { in_channels := 1, out_channels := 32, kernel_size := 3, dilation := 1, padding := 1 }

/-- Second layer of CANModel: nn.Conv2d(32, 32, kernel_size=3, dilation=2, padding=2). -/
def conv2 : Conv2d :=
  { in_channels := 32, out_channels := 32, kernel_size := 3, dilation := 2, padding := 2 }

/-- Third layer of CANModel: nn.Conv2d(32, 32, kernel_size=3, dilation=4, padding=4). -/
def conv3 : Conv2d :=
  { in_channels := 32, out_channels := 32, kernel_size := 3, dilation := 4, padding := 4 }

/-- Fourth layer of CANModel: nn.Conv2d(32, 32, kernel_size=3, dilation=8, padding=8). -/
def conv4 : Conv2d :=
  { in_channels := 32, out_channels := 32, kernel_size := 3, dilation := 8, padding := 8 }

/-- Fifth layer of CANModel: nn.Conv2d(32, 10, kernel_size=3, dilation=1, padding=1). -/
def conv5 : Conv2d :=
  { in_channels := 32, out_channels := 10, kernel_size := 3, dilation := 1, padding := 1 }

end CANModel

/-- A standard 3×3 convolution with dilation 1 mapping 32 channels to 32
channels, for comparison with the dilated layers of CANModel. -/
def standard3x3Conv32 : Conv2d :=
  { in_channels := 32, out_channels := 32, kernel_size := 3, dilation := 1 }

/-- C2: each dilated 3×3 convolution of CANModel (conv2 with dilation 2,
conv3 with dilation 4, conv4 with dilation 8, each mapping 32 channels to 32
channels) has exactly 9248 trainable parameters (32·32·3·3 weights plus 32
biases), the same count as a standard 3×3 convolution with dilation 1 and
the same input and output channel counts. -/
theorem C2_dilated_conv_param_count :
    CANModel.conv2.dilation = 2 ∧ CANModel.conv3.dilation = 4 ∧
    CANModel.conv4.dilation = 8 ∧
    CANModel.conv2.in_channels = 32 ∧ CANModel.conv2.out_channels = 32 ∧
    CANModel.conv3.in_channels = 32 ∧ CANModel.conv3.out_channels = 32 ∧
    CANModel.conv4.in_channels = 32 ∧ CANModel.conv4.out_channels = 32 ∧
    CANModel.conv2.paramCount = 9248 ∧
    CANModel.conv3.paramCount = 9248 ∧
    CANModel.conv4.paramCount = 9248 ∧
    standard3x3Conv32.paramCount = 9248 ∧
    32 * 32 * 3 * 3 + 32 = 9248 := by
  decide

/-- Sizes of the batches that a torch DataLoader with the given batch size
and the default drop_last = False yields over a dataset of n samples, in
order: full batches of b samples, followed by one remainder batch when b
does not divide n.  Both loaders of both notebooks pass only dataset,
batch_size and shuffle, so drop_last keeps its default False; shuffling
permutes samples but not batch sizes. -/
def batchSizes (n b : Nat) : List Nat :=
  List.replicate (n / b) b ++ if n % b = 0 then [] else [n % b]

/-- Modelled from the spec: MNIST is the standard benchmark dataset of
handwritten digit images; its training split has 60000 images.  The
repository holds no copy of the dataset, only the datasets.MNIST download
call, so the split size is taken from the dataset the spec names. -/
def mnistTrainSize : Nat := 60000

/-- Size of the MNIST test split; both notebooks print the accuracy of the
network on the 10000 test images. -/
def mnistTestSize : Nat := 10000

/-- Concrete shape of the train-loader batch size list over MNIST:
937 full batches of 64 and a final batch of 32. -/
theorem batchSizes_train :
    batchSizes mnistTrainSize batch_size = List.replicate 937 64 ++ [32] := by
  norm_num [batchSizes, mnistTrainSize, batch_size]

/-- Concrete shape of the test-loader batch size list over MNIST:
156 full batches of 64 and a final batch of 16. -/
theorem batchSizes_test :
    batchSizes mnistTestSize batch_size = List.replicate 156 64 ++ [16] := by
  norm_num [batchSizes, mnistTestSize, batch_size]

/-- C1 counterexample: the train loader yields a batch of 32 image/label
pairs and the test loader a batch of 16, refuting that every batch contains
exactly batch_size = 64 pairs. -/
theorem C1_counterexample :
    (32 : Nat) ∈ batchSizes mnistTrainSize batch_size ∧
    (16 : Nat) ∈ batchSizes mnistTestSize batch_size ∧
    (32 : Nat) ≠ batch_size ∧ (16 : Nat) ≠ batch_size := by
  refine ⟨?_, ?_, by decide, by decide⟩
  · rw [batchSizes_train]
    exact List.mem_append_right _ (List.mem_singleton.mpr rfl)
  · rw [batchSizes_test]
    exact List.mem_append_right _ (List.mem_singleton.mpr rfl)

/-- C1 amended: every batch the loaders yield contains at least 1 and at
most batch_size = 64 image/label pairs, and every batch except possibly the
last contains exactly 64; over MNIST the train loader yields 937 batches of
64 followed by one of 32, and the test loader 156 batches of 64 followed by
one of 16. -/
theorem C1_batch_sizes (n b : Nat) (hb : 0 < b) :
    (∀ s ∈ batchSizes n b, 1 ≤ s ∧ s ≤ b) ∧
    (∀ s ∈ (batchSizes n b).dropLast, s = b) ∧
    batchSizes mnistTrainSize batch_size = List.replicate 937 batch_size ++ [32] ∧
    batchSizes mnistTestSize batch_size = List.replicate 156 batch_size ++ [16] := by
  refine ⟨?_, ?_, batchSizes_train, batchSizes_test⟩
  · intro s hs
    rcases List.mem_append.mp hs with h | h
    · rw [List.eq_of_mem_replicate h]; exact ⟨hb, le_refl b⟩
    · by_cases hz : n % b = 0
      · simp [hz] at h
      · simp [hz] at h
        subst h
        exact ⟨Nat.one_le_iff_ne_zero.mpr hz, le_of_lt (Nat.mod_lt n hb)⟩
  · intro s hs
    unfold batchSizes at hs
    by_cases hz : n % b = 0
    · rw [if_pos hz, List.append_nil] at hs
      exact List.eq_of_mem_replicate (List.dropLast_subset _ hs)
    · rw [if_neg hz, List.dropLast_concat] at hs
      exact List.eq_of_mem_replicate hs

/-- Witness for C1_batch_sizes at n = 10, b = 4. -/
theorem C1_batch_sizes_witness :
    0 < 4 ∧
    ((∀ s ∈ batchSizes 10 4, 1 ≤ s ∧ s ≤ 4) ∧
     (∀ s ∈ (batchSizes 10 4).dropLast, s = 4) ∧
     batchSizes mnistTrainSize batch_size = List.replicate 937 batch_size ++ [32] ∧
     batchSizes mnistTestSize batch_size = List.replicate 156 batch_size ++ [16]) :=
  ⟨by decide, C1_batch_sizes 10 4 (by decide)⟩

/-- Grayscale image with rational pixel values, indexed row then column. -/
structure Image where
  height : Nat
  width : Nat
  pixel : Nat → Nat → ℚ

/-- Shape behaviour of torchvision transforms.Resize((32,32)): the output
always has the requested height and width.  The verified properties
constrain only the output size, so the resampling filter is modelled as
plain index sampling rather than the bilinear filter PIL applies. -/
def resizeT (outH outW : Nat) (img : Image) : Image :=
  { height := outH
    width := outW
    pixel := fun i j => img.pixel (i * img.height / outH) (j * img.width / outW) }

/-- transforms.ToTensor maps 8-bit pixel values in [0, 255] to [0, 1]. -/
def toTensorT (img : Image) : Image :=
  { img with pixel := fun i j => img.pixel i j / 255 }

/-- transforms.Normalize(mean, std) applies the pointwise affine map
(x - mean) / std. -/
def normalizeT (mean std : ℚ) (img : Image) : Image :=
  { img with pixel := fun i j => (img.pixel i j - mean) / std }

/-- Transform pipeline of train_dataset in both notebooks (second code cell):
Resize((32,32)), ToTensor, Normalize(mean = (0.1307,), std = (0.3081,)). -/
def trainTransform (img : Image) : Image :=
  normalizeT (1307 / 10000) (3081 / 10000) (toTensorT (resizeT 32 32 img))

/-- Transform pipeline of test_dataset in both notebooks (second code cell):
Resize((32,32)), ToTensor, Normalize(mean = (0.1325,), std = (0.3105,)). -/
def testTransform (img : Image) : Image :=
  normalizeT (1325 / 10000) (3105 / 10000) (toTensorT (resizeT 32 32 img))

/-- C3: in both notebooks the preprocessing transform maps every 28×28
grayscale image to a 32×32 tensor and then normalizes each pixel by the
affine map (x − mean) / std, with mean 0.1307 and std 0.3081 for the
training dataset and mean 0.1325 and std 0.3105 for the test dataset. -/
theorem C3_transform_pipeline (img : Image)
    (hh : img.height = 28) (hw : img.width = 28) :
    (trainTransform img).height = 32 ∧ (trainTransform img).width = 32 ∧
    (testTransform img).height = 32 ∧ (testTransform img).width = 32 ∧
    (∀ i j, (trainTransform img).pixel i j
      = ((toTensorT (resizeT 32 32 img)).pixel i j - 1307 / 10000) / (3081 / 10000)) ∧
    (∀ i j, (testTransform img).pixel i j
      = ((toTensorT (resizeT 32 32 img)).pixel i j - 1325 / 10000) / (3105 / 10000)) :=
  ⟨rfl, rfl, rfl, rfl, fun _ _ => rfl, fun _ _ => rfl⟩

/-- Witness for C3_transform_pipeline at a constant 28×28 image. -/
theorem C3_transform_pipeline_witness :
    (Image.mk 28 28 fun _ _ => 0).height = 28 ∧
    (Image.mk 28 28 fun _ _ => 0).width = 28 ∧
    (trainTransform (Image.mk 28 28 fun _ _ => 0)).height = 32 :=
  ⟨rfl, rfl, (C3_transform_pipeline (Image.mk 28 28 fun _ _ => 0) rfl rfl).1⟩

/-- Shape of a batch of images: (samples, channels, height, width). -/
structure BatchShape where
  n : Nat
  c : Nat
  h : Nat
  w : Nat
deriving DecidableEq

/-- Output spatial extent of a Conv2d along one dimension, following the
torch formula floor((size + 2·padding − dilation·(kernel − 1) − 1) / stride)
+ 1; none models the framework exception when the effective kernel exceeds
the padded input. -/
def Conv2d.outDim (conv : Conv2d) (size : Nat) : Option Nat :=
  if conv.dilation * (conv.kernel_size - 1) + 1 ≤ size + 2 * conv.padding then
    some ((size + 2 * conv.padding - (conv.dilation * (conv.kernel_size - 1) + 1))
      / conv.stride + 1)
  else none

/-- Shape of a Conv2d applied to a batch; none models the shape-mismatch
exception on a wrong channel count or a too-small spatial extent. -/
def Conv2d.shape (conv : Conv2d) (s : BatchShape) : Option BatchShape :=
  if s.c = conv.in_channels then
    (conv.outDim s.h).bind fun oh =>
    (conv.outDim s.w).map fun ow =>
    BatchShape.mk s.n conv.out_channels oh ow
  else none

/-- Shape of nn.MaxPool2d(kernel_size, stride) with no padding; none models
the exception when the window exceeds the input. -/
def maxPoolShape (kernel stride : Nat) (s : BatchShape) : Option BatchShape :=
  if kernel ≤ s.h ∧ kernel ≤ s.w then
    some (BatchShape.mk s.n s.c ((s.h - kernel) / stride + 1) ((s.w - kernel) / stride + 1))
  else none

/-- nn.BatchNorm2d(features) preserves the shape and checks the channel
count. -/
def batchNormShape (features : Nat) (s : BatchShape) : Option BatchShape :=
  if s.c = features then some s else none

/-- ReLU and LeakyReLU are elementwise and preserve any shape. -/
def reluShape (s : BatchShape) : Option BatchShape := some s

/-- Elementwise ReLU on an already flattened (samples, features) tensor. -/
def reluFlatShape (s : Nat × Nat) : Option (Nat × Nat) := some s

/-- nn.AdaptiveAvgPool2d((1, 1)) reduces any nonempty spatial extent to 1×1;
none models the exception on an empty input. -/
def adaptiveAvgPool1Shape (s : BatchShape) : Option BatchShape :=
  if 1 ≤ s.h ∧ 1 ≤ s.w then some (BatchShape.mk s.n s.c 1 1) else none

/-- x.view(x.size(0), -1) and out.reshape(out.size(0), -1) flatten each
sample to a feature vector. -/
def flattenShape (s : BatchShape) : Nat × Nat :=
  (s.n, s.c * s.h * s.w)

/-- Configuration of a torch.nn.Linear layer. -/
structure Linear where
  in_features : Nat
  out_features : Nat
deriving DecidableEq

/-- Shape of nn.Linear applied to a (samples, features) tensor; none models
the matrix-multiplication shape-mismatch exception. -/
def Linear.shape (l : Linear) (s : Nat × Nat) : Option (Nat × Nat) :=
  if s.2 = l.in_features then some (s.1, l.out_features) else none

namespace CANModel

/-- Shape semantics of CANModel.forward: five convolutions, each followed by
LeakyReLU, then adaptive average pooling to 1×1 and flattening. -/
def forwardShape (s : BatchShape) : Option (Nat × Nat) :=
  (conv1.shape s).bind fun s1 =>
  (reluShape s1).bind fun s1a =>
  (conv2.shape s1a).bind fun s2 =>
  (reluShape s2).bind fun s2a =>
  (conv3.shape s2a).bind fun s3 =>
  (reluShape s3).bind fun s3a =>
  (conv4.shape s3a).bind fun s4 =>
  (reluShape s4).bind fun s4a =>
  (conv5.shape s4a).bind fun s5 =>
  (reluShape s5).bind fun s5a =>
  (adaptiveAvgPool1Shape s5a).map flattenShape

end CANModel

namespace LeNet5

/-- Convolution of layer1 of LeNet5: nn.Conv2d(1, 6, kernel_size=5, stride=1, padding=0). -/
def layer1Conv : Conv2d :=
  { in_channels := 1, out_channels := 6, kernel_size := 5, stride := 1, padding := 0 }

/-- Convolution of layer2 of LeNet5: nn.Conv2d(6, 16, kernel_size=5, stride=1, padding=0). -/
def layer2Conv : Conv2d :=
  { in_channels := 6, out_channels := 16, kernel_size := 5, stride := 1, padding := 0 }

/-- First fully connected layer of LeNet5: nn.Linear(400, 120). -/
def fc : Linear := { in_features := 400, out_features := 120 }

/-- Second fully connected layer of LeNet5: nn.Linear(120, 84). -/
def fc1 : Linear := { in_features := 120, out_features := 84 }

/-- Output layer of LeNet5: nn.Linear(84, num_classes). -/
def fc2 (numClasses : Nat) : Linear := { in_features := 84, out_features := numClasses }

/-- Shape semantics of layer1: Conv2d(1,6,5), BatchNorm2d(6), ReLU,
MaxPool2d(2,2). -/
def layer1Shape (s : BatchShape) : Option BatchShape :=
  (layer1Conv.shape s).bind fun a =>
  (batchNormShape 6 a).bind fun b =>
  (reluShape b).bind fun c =>
  maxPoolShape 2 2 c

/-- Shape semantics of layer2: Conv2d(6,16,5), BatchNorm2d(16), ReLU,
MaxPool2d(2,2). -/
def layer2Shape (s : BatchShape) : Option BatchShape :=
  (layer2Conv.shape s).bind fun a =>
  (batchNormShape 16 a).bind fun b =>
  (reluShape b).bind fun c =>
  maxPoolShape 2 2 c

/-- Shape semantics of LeNet5.forward: layer1, layer2, flatten, fc, ReLU,
fc1, ReLU, fc2. -/
def forwardShape (numClasses : Nat) (s : BatchShape) : Option (Nat × Nat) :=
  (layer1Shape s).bind fun o1 =>
  (layer2Shape o1).bind fun o2 =>
  (fc.shape (flattenShape o2)).bind fun f0 =>
  (reluFlatShape f0).bind fun f0a =>
  (fc1.shape f0a).bind fun f1 =>
  (reluFlatShape f1).bind fun f1a =>
  (fc2 numClasses).shape f1a

end LeNet5

/-- C4: on every batch of N images of shape (N, 1, 32, 32), both
CANModel.forward and LeNet5.forward (with num_classes = 10) return a tensor
of shape (N, 10): exactly one score per digit class. -/
theorem C4_ten_scores (N : Nat) :
    CANModel.forwardShape (BatchShape.mk N 1 32 32) = some (N, 10) ∧
    LeNet5.forwardShape num_classes (BatchShape.mk N 1 32 32) = some (N, 10) := by
  refine ⟨?_, ?_⟩ <;>
    simp [CANModel.forwardShape, LeNet5.forwardShape, LeNet5.layer1Shape,
      LeNet5.layer2Shape, Conv2d.shape, Conv2d.outDim, CANModel.conv1,
      CANModel.conv2, CANModel.conv3, CANModel.conv4, CANModel.conv5,
      LeNet5.layer1Conv, LeNet5.layer2Conv, reluShape, reluFlatShape,
      batchNormShape, maxPoolShape, adaptiveAvgPool1Shape, flattenShape,
      Linear.shape, LeNet5.fc, LeNet5.fc1, LeNet5.fc2, num_classes]

/-- C6 counterexample: a batch of 33×33 images is not 32×32, yet
LeNet5.forward passes through all layers without a shape-mismatch error
(layer2 still flattens to 400 features), refuting that every non-32×32
batch raises. -/
theorem C6_counterexample :
    LeNet5.forwardShape num_classes (BatchShape.mk 1 1 33 33) = some (1, 10) ∧
    (33 : Nat) ≠ 32 := by
  refine ⟨?_, by decide⟩
  decide

/-- C6 amended: for every batch of shape (N, 1, 32, 32), LeNet5.forward
passes through all layers without error; batches of images of other sizes
generally raise the shape-mismatch exception because the flattened output of
layer2 no longer has the 400 features expected by fc — in particular the
native 28×28 MNIST size raises — but not every non-32×32 size fails, since
33×33 inputs also flatten to 400 features and pass. -/
theorem C6_shape_mismatch (N : Nat) :
    LeNet5.forwardShape num_classes (BatchShape.mk N 1 32 32) = some (N, 10) ∧
    LeNet5.forwardShape num_classes (BatchShape.mk N 1 28 28) = none := by
  refine ⟨?_, ?_⟩ <;>
    simp [LeNet5.forwardShape, LeNet5.layer1Shape, LeNet5.layer2Shape,
      Conv2d.shape, Conv2d.outDim, LeNet5.layer1Conv, LeNet5.layer2Conv,
      reluShape, reluFlatShape, batchNormShape, maxPoolShape, flattenShape,
      Linear.shape, LeNet5.fc, LeNet5.fc1, LeNet5.fc2, num_classes]

/-- Every convolution of CANModel has a 3×3 kernel, stride 1 and padding
equal to its dilation, so it preserves any positive spatial extent. -/
theorem Conv2d.outDim_pad_eq_dilation (conv : Conv2d) (size : Nat)
    (hk : conv.kernel_size = 3) (hp : conv.padding = conv.dilation)
    (hs : conv.stride = 1) (hsz : 1 ≤ size) :
    conv.outDim size = some size := by
  unfold Conv2d.outDim
  rw [hk, hp, hs, if_pos (by omega)]
  congr 1
  omega

/-- A CAN-style convolution maps (N, in, H, W) to (N, out, H, W) for any
positive H and W. -/
theorem Conv2d.shape_pad_eq_dilation (conv : Conv2d) (N C H W : Nat)
    (hc : C = conv.in_channels) (hk : conv.kernel_size = 3)
    (hp : conv.padding = conv.dilation) (hs : conv.stride = 1)
    (hH : 1 ≤ H) (hW : 1 ≤ W) :
    conv.shape (BatchShape.mk N C H W) = some (BatchShape.mk N conv.out_channels H W) := by
  unfold Conv2d.shape
  rw [if_pos hc,
    Conv2d.outDim_pad_eq_dilation conv H hk hp hs hH,
    Conv2d.outDim_pad_eq_dilation conv W hk hp hs hW]
  rfl

/-- C8: CANModel does not require 32×32 input: every convolution uses
padding equal to its dilation with a 3×3 kernel and so preserves the
spatial extent, and the adaptive average pooling reduces any positive
extent to 1×1; hence on every input of shape (N, 1, H, W) with H ≥ 1 and
W ≥ 1, CANModel.forward returns a tensor of shape (N, 10). -/
theorem C8_can_any_spatial_size (N H W : Nat) (hH : 1 ≤ H) (hW : 1 ≤ W) :
    CANModel.forwardShape (BatchShape.mk N 1 H W) = some (N, 10) := by
  have h1 : CANModel.conv1.shape (BatchShape.mk N 1 H W) = some (BatchShape.mk N 32 H W) :=
    Conv2d.shape_pad_eq_dilation CANModel.conv1 N 1 H W rfl rfl rfl rfl hH hW
  have h2 : CANModel.conv2.shape (BatchShape.mk N 32 H W) = some (BatchShape.mk N 32 H W) :=
    Conv2d.shape_pad_eq_dilation CANModel.conv2 N 32 H W rfl rfl rfl rfl hH hW
  have h3 : CANModel.conv3.shape (BatchShape.mk N 32 H W) = some (BatchShape.mk N 32 H W) :=
    Conv2d.shape_pad_eq_dilation CANModel.conv3 N 32 H W rfl rfl rfl rfl hH hW
  have h4 : CANModel.conv4.shape (BatchShape.mk N 32 H W) = some (BatchShape.mk N 32 H W) :=
    Conv2d.shape_pad_eq_dilation CANModel.conv4 N 32 H W rfl rfl rfl rfl hH hW
  have h5 : CANModel.conv5.shape (BatchShape.mk N 32 H W) = some (BatchShape.mk N 10 H W) :=
    Conv2d.shape_pad_eq_dilation CANModel.conv5 N 32 H W rfl rfl rfl rfl hH hW
  unfold CANModel.forwardShape
  rw [h1]
  simp only [reluShape, Option.some_bind]
  rw [h2]
  simp only [Option.some_bind]
  rw [h3]
  simp only [Option.some_bind]
  rw [h4]
  simp only [Option.some_bind]
  rw [h5]
  simp only [Option.some_bind]
  unfold adaptiveAvgPool1Shape
  rw [if_pos ⟨hH, hW⟩]
  simp [flattenShape]

/-- Witness for C8_can_any_spatial_size at a 5×9 input batch of 2 images. -/
theorem C8_can_any_spatial_size_witness :
    1 ≤ 5 ∧ 1 ≤ 9 ∧
    CANModel.forwardShape (BatchShape.mk 2 1 5 9) = some (2, 10) :=
  ⟨by decide, by decide, C8_can_any_spatial_size 2 5 9 (by decide) (by decide)⟩

/-- Events of the notebook scripts, one per executed statement of interest,
tagged with the epoch and batch index of the iteration that runs them. -/
inductive Ev where
  | forwardPass (epoch i : Nat)
  | lossCompute (epoch i : Nat)
  | zeroGrad (epoch i : Nat)
  | backwardPass (epoch i : Nat)
  | optStep (epoch i : Nat)
  | trackLoss (epoch i : Nat)
  | trackAcc (epoch i : Nat)
  | printEpochStats (epoch : Nat)
  | evalForward (i : Nat)
  | printTestAcc
deriving DecidableEq

/-- Events of one iteration of the inner loop of the training cell of both
notebooks, one per statement, in source order: outputs = model(images);
loss = cost(outputs, labels); optimizer.zero_grad(); loss.backward();
optimizer.step(); running_loss += loss.item(); the predicted, total and
correct accuracy-tracking lines. -/
def trainBatchTrace (epoch i : Nat) : List Ev :=
  [Ev.forwardPass epoch i, Ev.lossCompute epoch i, Ev.zeroGrad epoch i,
   Ev.backwardPass epoch i, Ev.optStep epoch i, Ev.trackLoss epoch i,
   Ev.trackAcc epoch i]

/-- Events of one epoch of the training cell: the inner loop over the
training batches, then the print of the average loss and the accuracy. -/
def trainEpochTrace (numBatches epoch : Nat) : List Ev :=
  (List.range numBatches).flatMap (trainBatchTrace epoch) ++ [Ev.printEpochStats epoch]

/-- Events of the whole script of either notebook: the training cell (a loop
over numEpochs epochs), followed by the test cell (a forward pass per test
batch under torch.no_grad(), then the test accuracy print). -/
def notebookTrace (numEpochs numBatches numTestBatches : Nat) : List Ev :=
  (List.range numEpochs).flatMap (trainEpochTrace numBatches) ++
    ((List.range numTestBatches).map Ev.evalForward ++ [Ev.printTestAcc])

/-- Modelled from the words of the spec: a standard supervised training loop
that, for each of the epochs and for every batch of the training loader,
computes the forward pass, computes the cross-entropy loss, zeroes the
gradients, backpropagates, applies exactly one optimizer step and
accumulates the running loss and the correct-prediction count; prints the
average loss and percent accuracy after each epoch; and only after all
training epochs runs the evaluation loop and prints the test accuracy. -/
def specTrace (numEpochs numBatches numTestBatches : Nat) : List Ev :=
  (List.range numEpochs).flatMap (fun epoch =>
    (List.range numBatches).flatMap (fun i =>
      [Ev.forwardPass epoch i, Ev.lossCompute epoch i, Ev.zeroGrad epoch i,
       Ev.backwardPass epoch i, Ev.optStep epoch i, Ev.trackLoss epoch i,
       Ev.trackAcc epoch i]) ++ [Ev.printEpochStats epoch]) ++
    ((List.range numTestBatches).map Ev.evalForward ++ [Ev.printTestAcc])

/-- C5: each notebook runs the training loop in the order the spec states —
per batch: forward pass, cross-entropy loss, zero gradients, backpropagate,
exactly one Adam optimizer step, accumulate running loss and correct counts;
per epoch: the loss/accuracy print after all its batches; and the evaluation
loop with its test-accuracy print only after all num_epochs = 20 training
epochs.  The event trace of the notebook equals the trace the spec
describes, and each batch iteration contains exactly one optimizer step. -/
theorem C5_training_loop_order (numBatches numTestBatches : Nat) :
    notebookTrace num_epochs numBatches numTestBatches
      = specTrace num_epochs numBatches numTestBatches ∧
    (∀ epoch i, (trainBatchTrace epoch i).count (Ev.optStep epoch i) = 1) ∧
    num_epochs = 20 := by
  refine ⟨rfl, ?_, rfl⟩
  intro epoch i
  simp [trainBatchTrace, List.count_cons]

/-- State of the test cell: the model parameters and the correct and total
counters.  P is the type of the parameter vector and I the type of one
input image. -/
structure EvalState (P : Type) where
  params : P
  correct : Nat
  total : Nat

/-- One iteration of the test loop of both notebooks, run under
torch.no_grad(): outputs = model(images) from the current parameters,
predicted = the argmax over the scores, total += labels.size(0) and
correct += (predicted == labels).sum().item().  The classify argument
abstracts the composite of the forward pass and the argmax; no statement
of the loop body writes the parameters and the optimizer is never
mentioned. -/
def testStep {P I : Type} (classify : P → I → Nat)
    (st : EvalState P) (batch : List (I × Nat)) : EvalState P :=
  let predicted := batch.map fun s => classify st.params s.1
  let labels := batch.map Prod.snd
  { st with
    total := st.total + labels.length
    correct := st.correct + ((predicted.zip labels).filter fun q => q.1 == q.2).length }

/-- The whole test loop of either notebook, starting from correct = 0 and
total = 0 with the parameters the training loop produced. -/
def testLoop {P I : Type} (classify : P → I → Nat)
    (params : P) (batches : List (List (I × Nat))) : EvalState P :=
  batches.foldl (testStep classify) (EvalState.mk params 0 0)

/-- Folding the test loop body over any batches leaves the parameter
component of the state untouched. -/
theorem testStep_foldl_params {P I : Type} (classify : P → I → Nat)
    (batches : List (List (I × Nat))) (st : EvalState P) :
    (batches.foldl (testStep classify) st).params = st.params := by
  induction batches generalizing st with
  | nil => rfl
  | cons b bs ih =>
    rw [List.foldl_cons, ih]
    simp [testStep]

/-- C9: the evaluation loop of each notebook leaves every trainable
parameter of the model unchanged: it runs under torch.no_grad() and never
calls the optimizer, so the parameters after the test loop completes equal
the parameters before it started. -/
theorem C9_eval_preserves_params {P I : Type} (classify : P → I → Nat)
    (params : P) (batches : List (List (I × Nat))) :
    (testLoop classify params batches).params = params :=
  testStep_foldl_params classify batches (EvalState.mk params 0 0)

/-- Running counters of the accuracy bookkeeping shared by every training
epoch and by the test loop of both notebooks. -/
structure Counters where
  correct : Nat
  total : Nat
deriving DecidableEq

/-- One batch of the accuracy bookkeeping: total += labels.size(0) and
correct += (predicted == labels).sum().item().  A batch is modelled by the
list of (predicted, label) pairs torch.max yields for it. -/
def trackBatch (st : Counters) (batch : List (Nat × Nat)) : Counters :=
  { correct := st.correct + (batch.filter fun q => q.1 == q.2).length
    total := st.total + batch.length }

/-- Counters after a list of batches, starting from correct = 0 and
total = 0 as every epoch and the test loop do. -/
def trackLoop (batches : List (List (Nat × Nat))) : Counters :=
  batches.foldl trackBatch (Counters.mk 0 0)

/-- Accuracy the loops print: 100 * correct / total as a rational. -/
def accuracyOf (st : Counters) : ℚ :=
  100 * (st.correct : ℚ) / (st.total : ℚ)

/-- Folding the bookkeeping over batches preserves correct ≤ total and adds
exactly the batch lengths to total. -/
theorem trackBatch_foldl_invariant (batches : List (List (Nat × Nat)))
    (st : Counters) (h : st.correct ≤ st.total) :
    (batches.foldl trackBatch st).correct ≤ (batches.foldl trackBatch st).total ∧
    (batches.foldl trackBatch st).total = st.total + (batches.map List.length).sum := by
  induction batches generalizing st with
  | nil => simpa using h
  | cons b bs ih =>
    rw [List.foldl_cons]
    have hb : (trackBatch st b).correct ≤ (trackBatch st b).total :=
      Nat.add_le_add h (List.length_filter_le _ b)
    obtain ⟨h1, h2⟩ := ih (trackBatch st b) hb
    refine ⟨h1, ?_⟩
    rw [h2]
    simp [trackBatch]
    omega

/-- C10: in every training epoch and in the test loop of both notebooks,
after every batch the counters satisfy 0 ≤ correct ≤ total with total equal
to the number of examples processed so far, and hence every printed
accuracy 100 * correct / total lies in [0, 100]. -/
theorem C10_counter_invariant (batches : List (List (Nat × Nat))) (k : Nat) :
    (trackLoop (batches.take k)).correct ≤ (trackLoop (batches.take k)).total ∧
    (trackLoop (batches.take k)).total = ((batches.take k).map List.length).sum ∧
    ((trackLoop (batches.take k)).total ≠ 0 →
      0 ≤ accuracyOf (trackLoop (batches.take k)) ∧
      accuracyOf (trackLoop (batches.take k)) ≤ 100) := by
  obtain ⟨h1, h2⟩ :=
    trackBatch_foldl_invariant (batches.take k) (Counters.mk 0 0) (le_refl 0)
  refine ⟨h1, by simpa using h2, fun ht => ⟨by unfold accuracyOf; positivity, ?_⟩⟩
  unfold accuracyOf
  have htpos : (0 : ℚ) < ((trackLoop (batches.take k)).total : ℚ) := by
    exact_mod_cast Nat.pos_of_ne_zero ht
  rw [div_le_iff₀ htpos]
  calc (100 : ℚ) * (trackLoop (batches.take k)).correct
      ≤ 100 * (trackLoop (batches.take k)).total := by
        have := h1
        gcongr
        exact_mod_cast this
    _ = 100 * (trackLoop (batches.take k)).total := rfl

/-- Witness for C10_counter_invariant on one batch of two samples, one of
them classified correctly. -/
theorem C10_counter_invariant_witness :
    (trackLoop ([[(1, 1), (2, 3)]].take 1)).total ≠ 0 ∧
    (0 ≤ accuracyOf (trackLoop ([[(1, 1), (2, 3)]].take 1)) ∧
      accuracyOf (trackLoop ([[(1, 1), (2, 3)]].take 1)) ≤ 100) :=
  ⟨by decide, (C10_counter_invariant [[(1, 1), (2, 3)]] 1).2.2 (by decide)⟩

end MNISTNotebooks
